import Mathlib

/-
Verification development for the Club 100 backend (FastAPI + Spotify helpers).
The Python sources `backend/app.py` and `backend/spotify.py` are shallowly
embedded below: global mutable state (the token storage singleton) becomes
explicit state passing, network calls become oracle parameters, raised
exceptions become `Except` errors, and wall-clock time is an explicit
parameter.
-/

set_option autoImplicit false

namespace Club100

/-- Truthiness of a Python `Optional[str]`: `None` and the empty string are
falsy, mirroring `if not self.access_token:` style checks. -/
def py_falsy : Option String → Bool
  | none => true
  | some s => s.isEmpty

/-- Embedding of `TokenStorage` from `app.py`: in-memory access token,
refresh token and Unix-timestamp expiry, each possibly absent. -/
structure TokenStorage where
  access_token : Option String
  refresh_token : Option String
  expires_at : Option Int
  deriving Repr, DecidableEq

/-- Embedding of `TokenStorage.set_tokens`: store both tokens and set
`expires_at = now + expires_in - 60` (60-second safety buffer). The current
time `now` stands for `int(time.time())`. -/
def TokenStorage.set_tokens (st : TokenStorage) (access refresh : String)
    (expires_in now : Int) : TokenStorage :=
  { st with
    access_token := some access
    refresh_token := some refresh
    expires_at := some (now + expires_in - 60) }

/-- Embedding of `TokenStorage.is_expired`: Python first tests
`if not self.expires_at:` (true for `None` and for the falsy value `0`),
then returns `int(time.time()) >= self.expires_at`. -/
def TokenStorage.is_expired (st : TokenStorage) (now : Int) : Bool :=
  match st.expires_at with
  | none => true
  | some e => if e = 0 then true else decide (now ≥ e)

/-- Embedding of `TokenStorage.clear`. -/
def TokenStorage.clear (_st : TokenStorage) : TokenStorage :=
  { access_token := none, refresh_token := none, expires_at := none }

/-- Error raised out of `get_fresh_token` in `spotify.py`: either one of the
two `Exception(...)` messages, or a propagated `httpx.HTTPStatusError` from
the upstream refresh call, carrying the upstream status and text. -/
inductive TokenError where
  | noAccessToken
  | noRefreshToken
  | http (status : Nat) (text : String)
  deriving Repr, DecidableEq

/-- The `str(e)` seen by handlers that catch the exception. -/
def TokenError.message : TokenError → String
  | .noAccessToken => "No access token available. User must authenticate first."
  | .noRefreshToken => "No refresh token available. User must re-authenticate."
  | .http _ text => text

/-- Body of a successful upstream token-refresh response: `access_token` and
`expires_in` are always read with `[]` (assumed present), `refresh_token` is
read with `.get` and may be omitted by the provider. -/
structure RefreshResponse where
  access_token : String
  refresh_token : Option String
  expires_in : Int
  deriving Repr, DecidableEq

/-- Embedding of `get_fresh_token` from `spotify.py`. The upstream
`refresh_access_token` network call is abstracted as `oracle`, applied to the
refresh token that the code would send. Returns the result (access token and
updated storage, or the raised error) together with the list of refresh calls
actually issued (their refresh-token argument), so that "no refresh was
attempted" is observable. -/
def get_fresh_token (st : TokenStorage) (now : Int)
    (oracle : String → Except TokenError RefreshResponse) :
    Except TokenError (String × TokenStorage) × List String :=
  if py_falsy st.access_token then
    (.error .noAccessToken, [])
  else if st.is_expired now then
    if py_falsy st.refresh_token then
      (.error .noRefreshToken, [])
    else
      let rt := st.refresh_token.getD ""
      match oracle rt with
      | .error e => (.error e, [rt])
      | .ok td =>
        let st' := st.set_tokens td.access_token (td.refresh_token.getD rt)
          td.expires_in now
        (.ok (st'.access_token.getD "", st'), [rt])
  else
    (.ok (st.access_token.getD "", st), [])

/-- An `httpx.HTTPStatusError`: upstream status code and response text. -/
structure HttpErr where
  status : Nat
  text : String
  deriving Repr, DecidableEq

/-- A FastAPI `HTTPException`: status code and detail message. -/
structure HttpException where
  status : Nat
  detail : String
  deriving Repr, DecidableEq

/-- Embedding of `/api/token` (`get_token` in `app.py`): delegate to
`get_fresh_token`; any exception at all is mapped to a single 401 whose
detail embeds the original error text. -/
def get_token (st : TokenStorage) (now : Int)
    (oracle : String → Except TokenError RefreshResponse) :
    Except HttpException String :=
  match (get_fresh_token st now oracle).1 with
  | .ok (tok, _) => .ok tok
  | .error e => .error ⟨401, "Failed to get access token: " ++ e.message⟩

/-- A raw track object from the upstream top-tracks response, restricted to
the fields `get_artist_top_tracks` reads. An absent `artists` key and an
absent `album`/`images` key are both modelled by the empty list, matching the
falsy checks in the Python comprehension. -/
structure RawTrack where
  uri : String
  name : String
  duration_ms : Int
  artists : List String
  album_images : List String
  deriving Repr, DecidableEq

/-- A formatted track as returned to the frontend. -/
structure Track where
  uri : String
  name : String
  duration_ms : Int
  artist_name : String
  album_image : Option String
  deriving Repr, DecidableEq

/-- Embedding of the per-track formatting in `get_artist_top_tracks`:
`track["artists"][0]["name"] if track.get("artists") else "Unknown"` and
`track["album"]["images"][0]["url"] if ... else None`. -/
def format_track (t : RawTrack) : Track :=
  { uri := t.uri
    name := t.name
    duration_ms := t.duration_ms
    artist_name := match t.artists with
      | [] => "Unknown"
      | a :: _ => a
    album_image := t.album_images.head? }

/-- Embedding of the pure part of `get_artist_top_tracks` from `spotify.py`
(the HTTP fetch is abstracted away; this is the transformation applied to the
decoded `tracks` array): format at most the first 10 tracks, then pad with
`None` until the list has length 10. -/
def get_artist_top_tracks (tracks : List RawTrack) : List (Option Track) :=
  let formatted := (tracks.take 10).map (fun t => some (format_track t))
  formatted ++ List.replicate (10 - formatted.length) none

/-- Truncation toward zero of a rational, mirroring Python's `int()` on the
float intermediate of the position computation. -/
def int_trunc (q : ℚ) : Int :=
  Int.tdiv q.num q.den

/-- Embedding of the position computation in `play_minute` (`app.py`):
`position_ms = min(0.6 * duration_ms, duration_ms - 45000)`,
`position_ms = max(0, min(position_ms, duration_ms - 10000))`,
`position_ms = int(position_ms)`. The float arithmetic is modelled exactly
over ℚ with `0.6 = 6/10`. -/
def position_ms (duration_ms : Int) : Int :=
  let c : ℚ := min ((6 : ℚ) / 10 * duration_ms) ((duration_ms : ℚ) - 45000)
  int_trunc (max 0 (min c ((duration_ms : ℚ) - 10000)))

/-- Request body of `/api/play-minute`. -/
structure PlayMinuteRequest where
  device_id : String
  track_uri : String
  duration_ms : Int
  deriving Repr, DecidableEq

/-- Success body of `/api/play-minute`. -/
structure PlayOkBody where
  status : String
  position_ms : Int
  track_uri : String
  deriving Repr, DecidableEq

/-- Mapping of an `httpx.HTTPStatusError` in the `play_minute` handler:
404 and 403 get dedicated messages, anything else is passed through. -/
def play_http_error (e : HttpErr) : HttpException :=
  if e.status = 404 then
    ⟨404, "Device not found. Make sure Spotify player is active."⟩
  else if e.status = 403 then
    ⟨403, "Playback forbidden. Ensure you have Spotify Premium."⟩
  else
    ⟨e.status, "Playback failed: " ++ e.text⟩

/-- Embedding of the `/api/play-minute` handler (`play_minute` in `app.py`).
The `start_playback` network call is abstracted as `player`, applied to the
device id, track URI and computed position. `httpx.HTTPStatusError` from
either the token refresh or the playback call hits the same `except` clause;
any other exception becomes a generic 500. -/
def play_minute (req : PlayMinuteRequest) (st : TokenStorage) (now : Int)
    (oracle : String → Except TokenError RefreshResponse)
    (player : String → String → Int → String → Except HttpErr Unit) :
    Except HttpException PlayOkBody :=
  match (get_fresh_token st now oracle).1 with
  | .error (.http s t) => .error (play_http_error ⟨s, t⟩)
  | .error e => .error ⟨500, "Playback error: " ++ e.message⟩
  | .ok (tok, _) =>
    match player req.device_id req.track_uri (position_ms req.duration_ms) tok with
    | .error e => .error (play_http_error e)
    | .ok _ => .ok ⟨"ok", position_ms req.duration_ms, req.track_uri⟩

/-- Observable events of a `/api/tracks` run: an invocation of
`get_fresh_token`, a `get_artist_top_tracks` HTTP call for an artist, and an
`asyncio.sleep` of a number of seconds. -/
inductive Ev where
  | tokenFetch
  | topTracks (artist : String)
  | sleep (seconds : Nat)
  deriving Repr, DecidableEq

/-- Outcome of the per-artist retry loop inside `get_tracks`. `skipped` is
the fall-through case: the `while retry_count < max_retries` condition became
false without the loop body either appending tracks or raising. -/
inductive ArtistOutcome where
  | got (tracks : List (Option Track))
  | skipped
  | failed (e : HttpException)
  | crashed (e : TokenError)
  deriving Repr, DecidableEq

/-- Embedding of the inner `while retry_count < max_retries` loop of
`get_tracks` for one artist. `fuel` is `max_retries - retry_count` (initially
5), `rc` is `retry_count`; each iteration performs exactly one top-tracks
call, so the per-artist attempt index equals `rc`. The upstream call is
abstracted as `env artist attempt`; `retry_delay` is the constant 1, so the
429 wait is `1 * 2 ^ retry_count` seconds after the increment. Returns the
outcome, the storage and access token after the loop, and the event trace. -/
def fetch_artist (oracle : String → Except TokenError RefreshResponse)
    (env : String → Nat → Except HttpErr (List RawTrack)) (now : Int)
    (i : Nat) (a : String) :
    Nat → Nat → TokenStorage → String →
    ArtistOutcome × TokenStorage × String × List Ev
  | 0, _, st, tok => (.skipped, st, tok, [])
  | fuel + 1, rc, st, tok =>
    match env a rc with
    | .ok raw => (.got (get_artist_top_tracks raw), st, tok, [.topTracks a])
    | .error e =>
      if e.status = 429 then
        if rc + 1 ≥ 5 then
          (.failed ⟨429, "Rate limited by Spotify API after 5 retries"⟩,
            st, tok, [.topTracks a])
        else
          let r := fetch_artist oracle env now i a fuel (rc + 1) st tok
          (r.1, r.2.1, r.2.2.1, .topTracks a :: .sleep (2 ^ (rc + 1)) :: r.2.2.2)
      else if e.status = 401 then
        match get_fresh_token st now oracle with
        | (.error te, _) => (.crashed te, st, tok, [.topTracks a, .tokenFetch])
        | (.ok (tok', st'), _) =>
          let r := fetch_artist oracle env now i a fuel (rc + 1) st' tok'
          (r.1, r.2.1, r.2.2.1, .topTracks a :: .tokenFetch :: r.2.2.2)
      else
        (.failed ⟨e.status,
          "Spotify API error for artist " ++ toString (i + 1) ++ ": " ++ e.text⟩,
          st, tok, [.topTracks a])

/-- The `for i, artist_id in enumerate(artist_ids)` loop of `get_tracks`:
run the retry loop for each artist in order, appending each successful track
list to `acc`; a `skipped` outcome appends nothing and moves on; a `failed`
outcome raises the `HTTPException` (re-raised by the outer handler); a
`crashed` token error is caught by the outer `except Exception` as a 500. -/
def get_tracks_go (oracle : String → Except TokenError RefreshResponse)
    (env : String → Nat → Except HttpErr (List RawTrack)) (now : Int) :
    List String → Nat → TokenStorage → String →
    List (List (Option Track)) → List Ev →
    Except HttpException (List (List (Option Track))) × List Ev
  | [], _, _, _, acc, evs => (.ok acc, evs)
  | a :: rest, i, st, tok, acc, evs =>
    match fetch_artist oracle env now i a 5 0 st tok with
    | (.got ts, st', tok', evs') =>
      get_tracks_go oracle env now rest (i + 1) st' tok' (acc ++ [ts]) (evs ++ evs')
    | (.skipped, st', tok', evs') =>
      get_tracks_go oracle env now rest (i + 1) st' tok' acc (evs ++ evs')
    | (.failed e, _, _, evs') => (.error e, evs ++ evs')
    | (.crashed te, _, _, evs') =>
      (.error ⟨500, "Failed to fetch tracks: " ++ te.message⟩, evs ++ evs')

/-- Embedding of the `/api/tracks` handler (`get_tracks` in `app.py`):
validate that exactly 10 artist ids were sent (400 citing the actual count
otherwise, before any token or network activity), obtain an access token
once, then fetch each artist's top tracks with the retry loop. Returns the
response and the event trace of the run. -/
def get_tracks (ids : List String) (st : TokenStorage) (now : Int)
    (oracle : String → Except TokenError RefreshResponse)
    (env : String → Nat → Except HttpErr (List RawTrack)) :
    Except HttpException (List (List (Option Track))) × List Ev :=
  if ids.length ≠ 10 then
    (.error ⟨400, "Expected exactly 10 artist IDs, got " ++ toString ids.length⟩, [])
  else
    match get_fresh_token st now oracle with
    | (.error te, _) =>
      (.error ⟨500, "Failed to fetch tracks: " ++ te.message⟩, [.tokenFetch])
    | (.ok (tok, st'), _) =>
      get_tracks_go oracle env now ids 0 st' tok [] [.tokenFetch]

/-! Concrete fixtures used to exercise the embedded handlers on closed
inputs: token states, refresh oracles, upstream track environments. -/

/-- A storage holding a valid, far-from-expiry token. -/
def stOk : TokenStorage := ⟨some "tok", some "ref", some 1000000⟩

/-- The empty storage created at process start. -/
def stEmpty : TokenStorage := ⟨none, none, none⟩

/-- An expired storage (expiry 0) that still has a refresh token. -/
def stExpired : TokenStorage := ⟨some "stale", some "ref", some 0⟩

/-- An expired storage with no refresh token. -/
def stNoRefresh : TokenStorage := ⟨some "stale", none, some 0⟩

/-- A refresh oracle that always fails with an upstream 500. -/
def orcNone : String → Except TokenError RefreshResponse :=
  fun _ => .error (.http 500 "unused")

/-- A refresh oracle whose response omits the refresh token. -/
def orcOmit : String → Except TokenError RefreshResponse :=
  fun _ => .ok ⟨"new", none, 3600⟩

/-- A refresh oracle whose response carries a new refresh token. -/
def orcNew : String → Except TokenError RefreshResponse :=
  fun _ => .ok ⟨"new", some "nref", 3600⟩

/-- A refresh oracle that fails with an upstream 503. -/
def orc503 : String → Except TokenError RefreshResponse :=
  fun _ => .error (.http 503 "service unavailable")

/-- A top-tracks environment that always succeeds with an empty track list. -/
def envOk : String → Nat → Except HttpErr (List RawTrack) :=
  fun _ _ => .ok []

/-- A top-tracks environment in which artist `A1` always answers 429. -/
def envAll429 : String → Nat → Except HttpErr (List RawTrack) :=
  fun a _ => if a = "A1" then .error ⟨429, "slow down"⟩ else .ok []

/-- A top-tracks environment in which artist `A1` always answers 401. -/
def env401 : String → Nat → Except HttpErr (List RawTrack) :=
  fun a _ => if a = "A1" then .error ⟨401, "stale"⟩ else .ok []

/-- A top-tracks environment in which artist `B1` answers 429 once and then
succeeds, while artist `A1` always answers 429. -/
def envMix429 : String → Nat → Except HttpErr (List RawTrack) :=
  fun a k =>
    if a = "B1" then (if k = 0 then .error ⟨429, "busy"⟩ else .ok [])
    else if a = "A1" then .error ⟨429, "busy"⟩ else .ok []

/-- A playback call that always succeeds. -/
def playerOk : String → String → Int → String → Except HttpErr Unit :=
  fun _ _ _ _ => .ok ()

/-- Ten artist identifiers. -/
def ids10 : List String :=
  ["A1", "A2", "A3", "A4", "A5", "A6", "A7", "A8", "A9", "A10"]

/-- Ten artist identifiers led by `B1` and `A1`. -/
def idsB : List String :=
  ["B1", "A1", "A2", "A3", "A4", "A5", "A6", "A7", "A8", "A9"]

/-- A raw track with no artists and no album images. -/
def rawNoArtists : RawTrack := ⟨"spotify:track:t0", "Song", 123456, [], []⟩

/-- The seconds of a sleep event, if any. -/
def sleep_seconds : Ev → Option Nat
  | .sleep s => some s
  | _ => none

/-- Whether an event is a top-tracks upstream call. -/
def is_top_call : Ev → Bool
  | .topTracks _ => true
  | _ => false

/-- Helper: the event trace of `get_tracks_go` always extends the incoming
trace, so the events recorded before the loop stay at the front. -/
theorem go_events_prefix (oracle : String → Except TokenError RefreshResponse)
    (env : String → Nat → Except HttpErr (List RawTrack)) (now : Int) :
    ∀ (ids : List String) (i : Nat) (st : TokenStorage) (tok : String)
      (acc : List (List (Option Track))) (evs : List Ev),
      ∃ t, (get_tracks_go oracle env now ids i st tok acc evs).2 = evs ++ t
  | [], _, _, _, _, evs => ⟨[], by simp [get_tracks_go]⟩
  | a :: rest, i, st, tok, acc, evs => by
    unfold get_tracks_go
    rcases hf : fetch_artist oracle env now i a 5 0 st tok with ⟨o, st', tok', evs'⟩
    cases o with
    | got ts =>
      obtain ⟨t, ht⟩ := go_events_prefix oracle env now rest (i + 1) st' tok'
        (acc ++ [ts]) (evs ++ evs')
      exact ⟨evs' ++ t, by simp [ht]⟩
    | skipped =>
      obtain ⟨t, ht⟩ := go_events_prefix oracle env now rest (i + 1) st' tok'
        acc (evs ++ evs')
      exact ⟨evs' ++ t, by simp [ht]⟩
    | failed e => exact ⟨evs', by simp⟩
    | crashed e => exact ⟨evs', by simp⟩

/-- Helper: when every artist's first top-tracks attempt succeeds, the loop
appends one formatted track list per artist, in input order, and records
exactly one top-tracks call per artist and no further token fetch. -/
theorem go_all_ok (oracle : String → Except TokenError RefreshResponse)
    (env : String → Nat → Except HttpErr (List RawTrack)) (now : Int)
    (raw : String → List RawTrack) (henv : ∀ a, env a 0 = .ok (raw a)) :
    ∀ (ids : List String) (i : Nat) (st : TokenStorage) (tok : String)
      (acc : List (List (Option Track))) (evs : List Ev),
      get_tracks_go oracle env now ids i st tok acc evs =
        (.ok (acc ++ ids.map (fun a => get_artist_top_tracks (raw a))),
         evs ++ ids.map Ev.topTracks)
  | [], _, _, _, _, _ => by simp [get_tracks_go]
  | a :: rest, i, st, tok, acc, evs => by
    have ih := go_all_ok oracle env now raw henv rest (i + 1) st tok
      (acc ++ [get_artist_top_tracks (raw a)]) (evs ++ [.topTracks a])
    unfold get_tracks_go
    simp only [fetch_artist, henv a]
    rw [ih]
    simp

/-- C1: for every duration `d` (milliseconds), the play-at-position handler
computes `candidate = min(0.6 * d, d - 45000)` and
`position = max(0, min(candidate, d - 10000))` truncated to integer
milliseconds; in particular `d = 15000 ↦ 0`, `d = 50000 ↦ 5000`,
`d = 300000 ↦ 180000`; and a successful response body carries this position
together with status "ok" and the input track URI. -/
theorem c1_play_position_formula (d : Int) (req : PlayMinuteRequest)
    (st : TokenStorage) (now : Int)
    (oracle : String → Except TokenError RefreshResponse)
    (player : String → String → Int → String → Except HttpErr Unit)
    (body : PlayOkBody)
    (h : play_minute req st now oracle player = .ok body) :
    position_ms d =
      int_trunc (max 0 (min (min ((6 : ℚ) / 10 * d) ((d : ℚ) - 45000))
        ((d : ℚ) - 10000))) ∧
    position_ms 15000 = 0 ∧ position_ms 50000 = 5000 ∧
    position_ms 300000 = 180000 ∧
    body.status = "ok" ∧ body.position_ms = position_ms req.duration_ms ∧
    body.track_uri = req.track_uri := by
  refine ⟨rfl, ?_, ?_, ?_, ?_⟩
  · simp only [position_ms, int_trunc, min_def, max_def]; norm_num
  · simp only [position_ms, int_trunc, min_def, max_def]; norm_num
  · simp only [position_ms, int_trunc, min_def, max_def]; norm_num
  · unfold play_minute at h
    split at h
    · exact absurd h (by simp)
    · exact absurd h (by simp)
    · split at h
      · exact absurd h (by simp)
      · simp only [Except.ok.injEq] at h
        subst h
        exact ⟨rfl, rfl, rfl⟩

/-- Witness for C1: a concrete successful run with duration 50000 returns
body `{status := "ok", position_ms := 5000, track_uri := "uri"}`. -/
theorem c1_play_position_witness :
    play_minute ⟨"dev", "uri", 50000⟩ stOk 0 orcNone playerOk =
      .ok ⟨"ok", 5000, "uri"⟩ ∧
    (PlayOkBody.mk "ok" 5000 "uri").status = "ok" ∧
    (PlayOkBody.mk "ok" 5000 "uri").position_ms = position_ms 50000 ∧
    (PlayOkBody.mk "ok" 5000 "uri").track_uri = "uri" := by
  have hpos : position_ms 50000 = 5000 := by
    simp only [position_ms, int_trunc, min_def, max_def]; norm_num
  have hrun : play_minute ⟨"dev", "uri", 50000⟩ stOk 0 orcNone playerOk =
      .ok ⟨"ok", 5000, "uri"⟩ := by
    have hr : play_minute ⟨"dev", "uri", 50000⟩ stOk 0 orcNone playerOk =
        .ok ⟨"ok", position_ms 50000, "uri"⟩ := rfl
    rw [hpos] at hr
    exact hr
  have hc := c1_play_position_formula 15000 ⟨"dev", "uri", 50000⟩ stOk 0
    orcNone playerOk ⟨"ok", 5000, "uri"⟩ hrun
  exact ⟨hrun, hc.2.2.2.2.1, hc.2.2.2.2.2.1, hc.2.2.2.2.2.2⟩

/-- C2 counterexample: with artist `A1` answering 429 on every attempt, the
batch fetch sleeps 2, 4, 8 and 16 seconds (four sleeps) and then fails at
the fifth 429; no 32-second sleep ever happens, contradicting the claimed
delay sequence 2, 4, 8, 16, 32 for retries 1 through 5. -/
theorem c2_backoff_counterexample :
    (get_tracks ids10 stOk 0 orcNone envAll429).1 =
      .error ⟨429, "Rate limited by Spotify API after 5 retries"⟩ ∧
    (get_tracks ids10 stOk 0 orcNone envAll429).2.filterMap sleep_seconds =
      [2, 4, 8, 16] ∧
    ¬ Ev.sleep 32 ∈ (get_tracks ids10 stOk 0 orcNone envAll429).2 := by
  refine ⟨rfl, rfl, by decide⟩

/-- C2 amended: per-artist retry counters are independent; for an artist that
keeps returning 429 the handler sleeps 2, 4, 8 and 16 seconds after the first
four occurrences (delay `2 ^ retry_count` after the increment) and fails the
whole request with the rate-limit error at the fifth occurrence, without a
fifth sleep. Here artist `b` consumes one 429 (one 2-second sleep) before
succeeding, and artist `a` then still gets the full fresh sequence. -/
theorem c2_backoff_amended (b a : String) (rest : List String)
    (st : TokenStorage) (now : Int)
    (oracle : String → Except TokenError RefreshResponse)
    (env : String → Nat → Except HttpErr (List RawTrack))
    (mb : String) (msg : Nat → String) (rawb : List RawTrack)
    (hlen : (b :: a :: rest).length = 10)
    (hacc : py_falsy st.access_token = false)
    (hexp : st.is_expired now = false)
    (hb0 : env b 0 = .error ⟨429, mb⟩)
    (hb1 : env b 1 = .ok rawb)
    (ha : ∀ k, k < 5 → env a k = .error ⟨429, msg k⟩) :
    get_tracks (b :: a :: rest) st now oracle env =
      (.error ⟨429, "Rate limited by Spotify API after 5 retries"⟩,
       [.tokenFetch, .topTracks b, .sleep 2, .topTracks b,
        .topTracks a, .sleep 2, .topTracks a, .sleep 4, .topTracks a,
        .sleep 8, .topTracks a, .sleep 16, .topTracks a]) := by
  have ha0 := ha 0 (by omega)
  have ha1 := ha 1 (by omega)
  have ha2 := ha 2 (by omega)
  have ha3 := ha 3 (by omega)
  have ha4 := ha 4 (by omega)
  unfold get_tracks
  rw [if_neg (by simp [hlen])]
  unfold get_fresh_token
  rw [if_neg (by simp [hacc]), if_neg (by simp [hexp])]
  show get_tracks_go oracle env now (b :: a :: rest) 0 st
    (st.access_token.getD "") [] [.tokenFetch] = _
  simp only [get_tracks_go, fetch_artist, hb0, hb1, ha0, ha1, ha2, ha3, ha4]
  norm_num [get_artist_top_tracks]

/-- Witness for C2 amended: the concrete mixed environment `envMix429`
produces exactly the predicted trace and the 429 failure. -/
theorem c2_backoff_witness :
    get_tracks idsB stOk 0 orcNone envMix429 =
      (.error ⟨429, "Rate limited by Spotify API after 5 retries"⟩,
       [.tokenFetch, .topTracks "B1", .sleep 2, .topTracks "B1",
        .topTracks "A1", .sleep 2, .topTracks "A1", .sleep 4, .topTracks "A1",
        .sleep 8, .topTracks "A1", .sleep 16, .topTracks "A1"]) := by
  have h := c2_backoff_amended "B1" "A1"
    ["A2", "A3", "A4", "A5", "A6", "A7", "A8", "A9"] stOk 0 orcNone envMix429
    "busy" (fun _ => "busy") [] rfl rfl (by decide) rfl rfl (fun k _ => rfl)
  exact h

/-- C3: the claim (10 track lists, one per artist, no artist silently
skipped) is the documented intent (`Returns a 10x10 matrix of tracks`), but
the code violates it: five consecutive 401 responses for one artist exhaust
the retry counter without the cap check of the 429 branch, so the `while`
loop falls through and the artist is skipped silently — 10 valid artist ids
yield a successful response containing only 9 track lists. -/
theorem c3_silently_skipped_artist :
    (get_tracks ids10 stOk 0 orcNone env401).1 =
      .ok (List.replicate 9 (List.replicate 10 (none : Option Track))) ∧
    (List.replicate 9 (List.replicate 10 (none : Option Track))).length = 9 := by
  exact ⟨rfl, by simp⟩

/-- C4: when a refresh succeeds, the storage is overwritten with the new
access token; the refresh token is replaced only if the response carried a
new one, an omitted refresh token leaves the previously stored one readable
(round-trip), and a present refresh token never becomes absent. -/
theorem c4_refresh_token_preserved (st : TokenStorage) (now : Int)
    (rt : String) (td : RefreshResponse)
    (oracle : String → Except TokenError RefreshResponse)
    (hacc : py_falsy st.access_token = false)
    (hexp : st.is_expired now = true)
    (hrtf : py_falsy st.refresh_token = false)
    (hrt : st.refresh_token = some rt)
    (horc : oracle rt = .ok td) :
    (get_fresh_token st now oracle).1 =
      .ok (td.access_token,
        st.set_tokens td.access_token (td.refresh_token.getD rt)
          td.expires_in now) ∧
    (td.refresh_token = none →
      (st.set_tokens td.access_token (td.refresh_token.getD rt)
        td.expires_in now).refresh_token = some rt) ∧
    (∀ n, td.refresh_token = some n →
      (st.set_tokens td.access_token (td.refresh_token.getD rt)
        td.expires_in now).refresh_token = some n) ∧
    (st.set_tokens td.access_token (td.refresh_token.getD rt)
      td.expires_in now).refresh_token ≠ none := by
  have hr0 : st.refresh_token.getD "" = rt := by rw [hrt]; rfl
  refine ⟨?_, ?_, ?_, ?_⟩
  · unfold get_fresh_token
    rw [if_neg (by simp [hacc]), if_pos (by simp [hexp]),
      if_neg (by simp [hrtf])]
    simp only [hr0, horc]
    simp [TokenStorage.set_tokens]
  · intro hn; simp [TokenStorage.set_tokens, hn]
  · intro n hn; simp [TokenStorage.set_tokens, hn]
  · simp [TokenStorage.set_tokens]

/-- Witness for C4: set tokens, expire, refresh with a response that omits
the refresh token — the old refresh token `"ref"` is still stored. -/
theorem c4_refresh_token_witness :
    (get_fresh_token stExpired 0 orcOmit).1 =
      .ok ("new", stExpired.set_tokens "new" "ref" 3600 0) ∧
    (stExpired.set_tokens "new" "ref" 3600 0).refresh_token = some "ref" := by
  have h := c4_refresh_token_preserved stExpired 0 "ref" ⟨"new", none, 3600⟩
    orcOmit rfl rfl rfl rfl rfl
  exact ⟨h.1, h.2.1 rfl⟩

/-- C5: the token manager fails with the no-access-token error when the
store is empty (and issues no refresh call), fails with the re-authentication
error when the token is expired and no refresh token is stored, and otherwise
returns the stored (or just-refreshed) access token. -/
theorem c5_token_manager_errors (st : TokenStorage) (now : Int)
    (oracle : String → Except TokenError RefreshResponse) :
    (st.access_token = none →
      get_fresh_token st now oracle = (.error .noAccessToken, [])) ∧
    (py_falsy st.access_token = false → st.is_expired now = true →
      py_falsy st.refresh_token = true →
      get_fresh_token st now oracle = (.error .noRefreshToken, [])) ∧
    (∀ a, st.access_token = some a → py_falsy st.access_token = false →
      st.is_expired now = false →
      (get_fresh_token st now oracle).1 = .ok (a, st)) ∧
    (∀ rt td, py_falsy st.access_token = false → st.is_expired now = true →
      py_falsy st.refresh_token = false → st.refresh_token = some rt →
      oracle rt = .ok td →
      (get_fresh_token st now oracle).1 =
        .ok (td.access_token,
          st.set_tokens td.access_token (td.refresh_token.getD rt)
            td.expires_in now)) := by
  refine ⟨?_, ?_, ?_, ?_⟩
  · intro h
    unfold get_fresh_token
    rw [if_pos (by simp [py_falsy, h])]
  · intro h1 h2 h3
    unfold get_fresh_token
    rw [if_neg (by simp [h1]), if_pos (by simp [h2]), if_pos (by simp [h3])]
  · intro a ha h1 h2
    unfold get_fresh_token
    rw [if_neg (by simp [h1]), if_neg (by simp [h2])]
    simp [ha]
  · intro rt td h1 h2 h3 hrt horc
    have hr0 : st.refresh_token.getD "" = rt := by rw [hrt]; rfl
    unfold get_fresh_token
    rw [if_neg (by simp [h1]), if_pos (by simp [h2]), if_neg (by simp [h3])]
    simp only [hr0, horc]
    simp [TokenStorage.set_tokens]

/-- Witness for C5: the four branches at concrete credential states. -/
theorem c5_token_manager_witness :
    get_fresh_token stEmpty 0 orcNone = (.error .noAccessToken, []) ∧
    get_fresh_token stNoRefresh 0 orcNone = (.error .noRefreshToken, []) ∧
    (get_fresh_token stOk 0 orcNone).1 = .ok ("tok", stOk) ∧
    (get_fresh_token stExpired 0 orcNew).1 =
      .ok ("new", stExpired.set_tokens "new" "nref" 3600 0) := by
  refine ⟨(c5_token_manager_errors stEmpty 0 orcNone).1 rfl,
    (c5_token_manager_errors stNoRefresh 0 orcNone).2.1 rfl rfl rfl,
    (c5_token_manager_errors stOk 0 orcNone).2.2.1 "tok" rfl rfl (by decide),
    ?_⟩
  exact (c5_token_manager_errors stExpired 0 orcNew).2.2.2 "ref"
    ⟨"new", some "nref", 3600⟩ rfl rfl rfl rfl rfl

/-- C6: a batch request whose artist-id count differs from 10 fails
immediately with a 400 citing the actual count and with an empty event trace
(no token refresh, no top-tracks call); a request with exactly 10 ids passes
validation and proceeds to the token step. -/
theorem c6_count_validation (ids : List String) (st : TokenStorage)
    (now : Int) (oracle : String → Except TokenError RefreshResponse)
    (env : String → Nat → Except HttpErr (List RawTrack)) :
    (ids.length ≠ 10 →
      get_tracks ids st now oracle env =
        (.error ⟨400, "Expected exactly 10 artist IDs, got " ++
          toString ids.length⟩, [])) ∧
    (ids.length = 10 →
      (get_tracks ids st now oracle env).2.head? = some .tokenFetch) := by
  constructor
  · intro hne
    unfold get_tracks
    rw [if_pos hne]
  · intro h10
    unfold get_tracks
    rw [if_neg (by simp [h10])]
    rcases hg : get_fresh_token st now oracle with ⟨res, tr⟩
    cases res with
    | error te => simp
    | ok p =>
      obtain ⟨t, ht⟩ := go_events_prefix oracle env now ids 0 p.2 p.1 []
        [.tokenFetch]
      simp only []
      rw [ht]
      rfl

/-- Witness for C6: one artist id gives the 400 with count 1 and no events;
ten ids proceed to the token fetch. -/
theorem c6_count_validation_witness :
    get_tracks ["x"] stOk 0 orcNone envOk =
      (.error ⟨400, "Expected exactly 10 artist IDs, got 1"⟩, []) ∧
    (get_tracks ids10 stOk 0 orcNone envOk).2.head? = some .tokenFetch := by
  have h := (c6_count_validation ["x"] stOk 0 orcNone envOk).1 (by decide)
  exact ⟨h, (c6_count_validation ids10 stOk 0 orcNone envOk).2 rfl⟩

/-- C7: storing a token pair sets the expiry to issue time plus lifetime
minus the 60-second buffer, and (for a non-negative clock) the expiry check
reports expired exactly when the expiry instant is absent or the current
time is at or after it. -/
theorem c7_expiry_semantics (st : TokenStorage) (a r : String)
    (e_in now now2 : Int) (h : 0 ≤ now2) :
    (st.set_tokens a r e_in now).expires_at = some (now + e_in - 60) ∧
    (st.is_expired now2 = true ↔
      st.expires_at = none ∨ ∃ e, st.expires_at = some e ∧ e ≤ now2) := by
  refine ⟨rfl, ?_⟩
  unfold TokenStorage.is_expired
  rcases hst : st.expires_at with _ | e
  · simp
  · by_cases he : e = 0
    · subst he
      simp [h]
    · simp [he, ge_iff_le]

/-- Witness for C7: concrete expiry arithmetic and expiry check. -/
theorem c7_expiry_witness :
    (stOk.set_tokens "a" "r" 3600 100).expires_at = some (100 + 3600 - 60) ∧
    (stOk.is_expired 100 = true ↔
      stOk.expires_at = none ∨ ∃ e, stOk.expires_at = some e ∧ e ≤ 100) :=
  c7_expiry_semantics stOk "a" "r" 3600 100 100 (by decide)

/-- C8: the formatted top-tracks list always has length exactly 10: the
first 10 upstream tracks are kept (primary artist name "Unknown" when the
artists list is empty, first album image or absent), and the list is padded
with trailing absent markers when fewer than 10 tracks are returned. -/
theorem c8_top_tracks_padding (tracks : List RawTrack) :
    (get_artist_top_tracks tracks).length = 10 ∧
    get_artist_top_tracks tracks =
      (tracks.take 10).map (fun t => some (format_track t)) ++
        List.replicate (10 - min tracks.length 10) none ∧
    (∀ t : RawTrack, t.artists = [] →
      (format_track t).artist_name = "Unknown") ∧
    (∀ (t : RawTrack) (x : String) (l : List String), t.artists = x :: l →
      (format_track t).artist_name = x) ∧
    (∀ t : RawTrack, (format_track t).uri = t.uri ∧
      (format_track t).name = t.name ∧
      (format_track t).duration_ms = t.duration_ms ∧
      (format_track t).album_image = t.album_images.head?) := by
  refine ⟨?_, ?_, ?_, ?_, ?_⟩
  · simp only [get_artist_top_tracks, List.length_append, List.length_map,
      List.length_take, List.length_replicate]
    omega
  · simp [get_artist_top_tracks, List.length_take, Nat.min_comm]
  · intro t ht
    simp [format_track, ht]
  · intro t x l ht
    simp [format_track, ht]
  · intro t
    exact ⟨rfl, rfl, rfl, rfl⟩

/-- Witness for C8: a single raw track with no artists yields a 10-long list
and the "Unknown" artist name. -/
theorem c8_top_tracks_witness :
    (get_artist_top_tracks [rawNoArtists]).length = 10 ∧
    (format_track rawNoArtists).artist_name = "Unknown" := by
  have h := c8_top_tracks_padding [rawNoArtists]
  exact ⟨h.1, h.2.2.1 rawNoArtists rfl⟩

/-- C9 counterexample: in a plain successful run over 10 artists the trace
contains exactly one token fetch (before the first artist) followed by ten
top-tracks calls, so it is false that a token is obtained before every
artist's call (that would require at least 10 token fetches). -/
theorem c9_token_per_artist_counterexample :
    (get_tracks ids10 stOk 0 orcNone envOk).2 =
      .tokenFetch :: ids10.map Ev.topTracks ∧
    (get_tracks ids10 stOk 0 orcNone envOk).2.count Ev.tokenFetch = 1 ∧
    ((get_tracks ids10 stOk 0 orcNone envOk).2.filter is_top_call).length = 10 ∧
    ¬ 10 ≤ (get_tracks ids10 stOk 0 orcNone envOk).2.count Ev.tokenFetch := by
  refine ⟨rfl, by decide, by decide, by decide⟩

/-- C9 amended: a valid access token is obtained from the token manager once,
before the loop, and reused for all 10 artists; when no call fails with 401,
the trace is exactly one token fetch followed by one top-tracks call per
artist in input order. -/
theorem c9_single_token_fetch (ids : List String) (st : TokenStorage)
    (now : Int) (oracle : String → Except TokenError RefreshResponse)
    (env : String → Nat → Except HttpErr (List RawTrack))
    (raw : String → List RawTrack)
    (hlen : ids.length = 10)
    (hacc : py_falsy st.access_token = false)
    (hexp : st.is_expired now = false)
    (henv : ∀ a, env a 0 = .ok (raw a)) :
    get_tracks ids st now oracle env =
      (.ok (ids.map (fun a => get_artist_top_tracks (raw a))),
       .tokenFetch :: ids.map Ev.topTracks) ∧
    (Ev.tokenFetch :: ids.map Ev.topTracks).count Ev.tokenFetch = 1 := by
  constructor
  · unfold get_tracks
    rw [if_neg (by simp [hlen])]
    unfold get_fresh_token
    rw [if_neg (by simp [hacc]), if_neg (by simp [hexp])]
    show get_tracks_go oracle env now ids 0 st (st.access_token.getD "")
      [] [.tokenFetch] = _
    rw [go_all_ok oracle env now raw henv]
    simp
  · rw [List.count_cons_self, List.count_eq_zero.mpr, Nat.zero_add]
    intro hb
    simp only [List.mem_map] at hb
    obtain ⟨x, _, hx⟩ := hb
    exact absurd hx (by simp)

/-- Witness for C9 amended: the concrete all-successful run. -/
theorem c9_single_token_fetch_witness :
    get_tracks ids10 stOk 0 orcNone envOk =
      (.ok (ids10.map (fun _ => get_artist_top_tracks ([] : List RawTrack))),
       .tokenFetch :: ids10.map Ev.topTracks) ∧
    (Ev.tokenFetch :: ids10.map Ev.topTracks).count Ev.tokenFetch = 1 := by
  exact c9_single_token_fetch ids10 stOk 0 orcNone envOk (fun _ => []) rfl rfl
    (by decide) (fun _ => rfl)

/-- C10: the token endpoint maps every token-manager failure — no token yet,
no refresh token, or an upstream HTTP failure of any status — to a single 401
embedding the original error text; in particular an upstream status is not
passed through. -/
theorem c10_token_endpoint_401 (st : TokenStorage) (now : Int)
    (oracle : String → Except TokenError RefreshResponse) (e : TokenError)
    (h : (get_fresh_token st now oracle).1 = .error e) :
    get_token st now oracle =
      .error ⟨401, "Failed to get access token: " ++ e.message⟩ ∧
    ∀ s t, e = .http s t →
      get_token st now oracle =
        .error ⟨401, "Failed to get access token: " ++ t⟩ := by
  have hm : get_token st now oracle =
      .error ⟨401, "Failed to get access token: " ++ e.message⟩ := by
    unfold get_token
    rw [h]
  refine ⟨hm, ?_⟩
  intro s t hst
  subst hst
  exact hm

/-- Witness for C10: an upstream 503 during refresh still surfaces as 401
with the upstream text embedded. -/
theorem c10_token_endpoint_witness :
    get_token stExpired 0 orc503 =
      .error ⟨401, "Failed to get access token: service unavailable"⟩ := by
  have h := c10_token_endpoint_401 stExpired 0 orc503
    (.http 503 "service unavailable") rfl
  exact h.2 503 "service unavailable" rfl

end Club100
